import Mathlib

/-!
Shallow embedding of the Garden runtime control plane:
the buffered telemetry forwarder (`src/core/src/enterprise/buffered-event-stream.ts`)
and the local command/event server (`GardenServer`).

JavaScript arrays are `List`, `undefined`/`null` is `Option`, timestamps are `Nat`,
event payloads keep only the fields the embedded code reads.
-/

namespace Garden

/-- An event payload. The code only ever reads `payload.workflowRunUid`
(in `handleControlEvent`); the rest is opaque and kept as one field. -/
structure Payload where
  workflowRunUid : String
  data : String
deriving DecidableEq, Repr

/-- `StreamEvent` from buffered-event-stream.ts: `{name, payload, timestamp}`. -/
structure StreamEvent where
  name : String
  payload : Payload
  timestamp : Nat
deriving DecidableEq, Repr

/-- `LogEntryEvent` (fields not read by the embedded code are collapsed). -/
structure LogEntryEvent where
  key : String
  msg : String
  timestamp : Nat
  level : Nat
deriving DecidableEq, Repr

/-- `StreamTarget`: `{host, clientAuthToken}`. -/
structure StreamTarget where
  host : String
  clientAuthToken : String
deriving DecidableEq, Repr

/-- The fields of a connected `Garden` instance that the stream reads, plus the
identity of its event bus (used for listener bookkeeping). -/
structure GardenInfo where
  busId : Nat
  projectId : Option String
  environmentName : String
  namespaceName : String
deriving DecidableEq, Repr

/-- `ApiEventBatch` (the `namespace` field is `namespaceName` here). -/
structure ApiEventBatch where
  events : List StreamEvent
  workflowRunUid : Option String
  sessionId : String
  projectUid : Option String
  environment : String
  namespaceName : String
deriving DecidableEq, Repr

/-- `ApiLogBatch`. -/
structure ApiLogBatch where
  logEntries : List LogEntryEvent
  workflowRunUid : Option String
  sessionId : String
  projectUid : Option String
deriving DecidableEq, Repr

/-- `controlEventNames = new Set(["_workflowRunRegistered"])`. -/
def controlEventNames : List String := ["_workflowRunRegistered"]

/-- A listener this stream registered on some event bus: created by one
`subscribeToGardenEvents` call (identified by its generation `gen`) for one
event name. -/
structure Listener where
  gen : Nat
  eventName : String
deriving DecidableEq, Repr

/-- The registrations of this stream's listeners across all orchestrator event
buses: pairs of (bus id, listener). -/
abbrev BusWorld := List (Nat × Listener)

/-- The mutable fields of a `BufferedEventStream` instance.
`envWorkflowRunUid` models the ambient `gardenEnv.GARDEN_WORKFLOW_RUN_UID`
(empty string = unset, matching the JS falsiness check).
`gardenListenerGen` models the `gardenEventListeners` map: the generation of
the last `subscribeToGardenEvents` call, whose listeners (one per event name)
the map records. -/
structure StreamState where
  sessionId : String
  envWorkflowRunUid : String
  targets : List StreamTarget
  garden : Option GardenInfo
  workflowRunUid : Option String
  intervalId : Option Nat
  bufferedEvents : List StreamEvent
  bufferedLogEntries : List LogEntryEvent
  maxBatchSize : Nat
  gardenListenerGen : Option Nat
  nextGen : Nat
  nextTimerId : Nat
deriving DecidableEq, Repr

/-- State after the constructor: empty buffers, no targets, no garden, no timer. -/
def initialStream (sessionId : String) (env : String) : StreamState :=
  { sessionId := sessionId
    envWorkflowRunUid := env
    targets := []
    garden := none
    workflowRunUid := none
    intervalId := none
    bufferedEvents := []
    bufferedLogEntries := []
    maxBatchSize := 100
    gardenListenerGen := none
    nextGen := 0
    nextTimerId := 0 }

/-- `getWorkflowRunUid`: `gardenEnv.GARDEN_WORKFLOW_RUN_UID || this.workflowRunUid`
(the JS `||` falls through on the empty string). -/
def getWorkflowRunUid (st : StreamState) : Option String :=
  if st.envWorkflowRunUid ≠ "" then some st.envWorkflowRunUid else st.workflowRunUid

/-- `handleControlEvent`: on `_workflowRunRegistered`, store the payload's uid. -/
def handleControlEvent (st : StreamState) (name : String) (payload : Payload) :
    StreamState :=
  if name = "_workflowRunRegistered" then
    { st with workflowRunUid := some payload.workflowRunUid }
  else st

/-- `streamEvent`: control events go to `handleControlEvent` and return; other
events are pushed onto the event buffer. -/
def streamEvent (st : StreamState) (name : String) (payload : Payload) (ts : Nat) :
    StreamState :=
  if name ∈ controlEventNames then handleControlEvent st name payload
  else { st with bufferedEvents := st.bufferedEvents ++ [⟨name, payload, ts⟩] }

/-- `streamLogEntry`: push onto the log-entry buffer. -/
def streamLogEntry (st : StreamState) (e : LogEntryEvent) : StreamState :=
  { st with bufferedLogEntries := st.bufferedLogEntries ++ [e] }

/-- JS `x || undefined` on a nullable string: empty string and null both
become undefined. -/
def orUndefined (p : Option String) : Option String :=
  match p with
  | some s => if s = "" then none else some s
  | none => none

/-- `flushEvents`: returns the batch it would POST, or `none` when the event
list is empty (the code returns without posting). `g` is `this.garden`,
guaranteed by `flushBuffered`'s guard. -/
def flushEvents (st : StreamState) (g : GardenInfo) (events : List StreamEvent) :
    Option ApiEventBatch :=
  if events.length = 0 then none
  else
    some { events := events
           workflowRunUid := getWorkflowRunUid st
           sessionId := st.sessionId
           projectUid := orUndefined g.projectId
           environment := g.environmentName
           namespaceName := g.namespaceName }

/-- `flushLogEntries`: as `flushEvents` (its own `!this.garden` guard is
subsumed by `flushBuffered`'s, which supplies `g`). -/
def flushLogEntries (st : StreamState) (g : GardenInfo)
    (logEntries : List LogEntryEvent) : Option ApiLogBatch :=
  if logEntries.length = 0 then none
  else
    some { logEntries := logEntries
           workflowRunUid := getWorkflowRunUid st
           sessionId := st.sessionId
           projectUid := orUndefined g.projectId }

/-- JS `array.splice(0, count)` where `count` may be negative: a negative
count removes nothing; otherwise up to `count` elements are removed from the
front. Returns (removed, remaining). -/
def spliceFront (count : Int) (xs : List α) : List α × List α :=
  (xs.take count.toNat, xs.drop count.toNat)

/-- `postToTargets`: one POST of the batch to every configured target
(`Bluebird.map` over `this.targets`). Returns the list of delivery attempts. -/
def postToTargets (targets : List StreamTarget) (b : β) : List (StreamTarget × β) :=
  targets.map (fun t => (t, b))

/-- Everything observable about one `flushBuffered` call: the state afterwards,
the batches built (if any), and the delivery attempts issued. -/
structure FlushOutput where
  state : StreamState
  eventBatch : Option ApiEventBatch
  logBatch : Option ApiLogBatch
  eventAttempts : List (StreamTarget × ApiEventBatch)
  logAttempts : List (StreamTarget × ApiLogBatch)
deriving DecidableEq, Repr

/-- `flushBuffered({flushAll})`. Returns early when no garden is connected or
no target is configured. Otherwise splices the buffers — events by
`flushAll ? length : maxBatchSize`, log entries by
`flushAll ? length : maxBatchSize - length` (the subtraction is the code's
literal expression) — and posts each nonempty batch to every target.
The buffers are updated before any delivery outcome is known. -/
def flushBuffered (flushAll : Bool) (st : StreamState) : FlushOutput :=
  match st.garden with
  | none => ⟨st, none, none, [], []⟩
  | some g =>
    if st.targets.length = 0 then ⟨st, none, none, [], []⟩
    else
      let eventCount : Int :=
        if flushAll then (st.bufferedEvents.length : Int) else (st.maxBatchSize : Int)
      let ev := spliceFront eventCount st.bufferedEvents
      let logEntryFlushCount : Int :=
        if flushAll then (st.bufferedLogEntries.length : Int)
        else (st.maxBatchSize : Int) - (st.bufferedLogEntries.length : Int)
      let lg := spliceFront logEntryFlushCount st.bufferedLogEntries
      let st2 := { st with bufferedEvents := ev.2, bufferedLogEntries := lg.2 }
      let eb := flushEvents st2 g ev.1
      let lb := flushLogEntries st2 g lg.1
      ⟨st2, eb, lb,
        (match eb with | none => [] | some b => postToTargets st2.targets b),
        (match lb with | none => [] | some b => postToTargets st2.targets b)⟩

/-- A flush together with per-attempt delivery outcomes. The outcome function
(success/failure per target) is consulted only after the flush has produced
its state and attempts — mirroring that the code splices the buffers before
awaiting any POST, and a rejected POST only propagates an error. -/
def flushWithOutcome (outcome : StreamTarget → Bool) (flushAll : Bool)
    (st : StreamState) : FlushOutput × List Bool :=
  let out := flushBuffered flushAll st
  (out, out.eventAttempts.map (fun a => outcome a.1)
        ++ out.logAttempts.map (fun a => outcome a.1))

/-- `close()`: clear the interval timer (if any), null the handle, then one
`flushBuffered({flushAll: true})`; a delivery error is caught and logged.
`timers` is the set of live interval timers in the process. -/
def closeStream (st : StreamState) (timers : List Nat) :
    StreamState × List Nat × FlushOutput :=
  match st.intervalId with
  | some tid =>
      let out := flushBuffered true { st with intervalId := none }
      (out.state, timers.filter (fun t => decide (t ≠ tid)), out)
  | none =>
      let out := flushBuffered true st
      (out.state, timers, out)

/-- `subscribeToGardenEvents(eventBus)`: for each garden event name, create a
fresh listener, register it on the bus, and record it in the listener map.
All listeners of one call share one generation; the map (here
`gardenListenerGen`) records exactly this call's listeners. -/
def subscribeToGardenEvents (eventNames : List String) (busId : Nat)
    (st : StreamState) (w : BusWorld) : StreamState × BusWorld :=
  ({ st with gardenListenerGen := some st.nextGen, nextGen := st.nextGen + 1 },
   w ++ eventNames.map (fun n => (busId, ⟨st.nextGen, n⟩)))

/-- `unsubscribeFromGardenEvents(eventBus)`: remove every listener recorded in
the map from the given bus (`removeListener` per recorded name/listener pair).
Listeners of other generations, or on other buses, are untouched. -/
def unsubscribeFromGardenEvents (busId : Nat) (st : StreamState) (w : BusWorld) :
    BusWorld :=
  match st.gardenListenerGen with
  | none => w
  | some gen => w.filter (fun p => decide (¬(p.1 = busId ∧ p.2.gen = gen)))

/-- `startInterval()`: allocate a fresh interval timer and store its handle. -/
def startInterval (st : StreamState) (timers : List Nat) : StreamState × List Nat :=
  ({ st with intervalId := some st.nextTimerId, nextTimerId := st.nextTimerId + 1 },
   timers ++ [st.nextTimerId])

/-- `connect({garden, targets})`: clear the previous timer if running, replace
the target list when one is given, unsubscribe from the previous garden's bus
if any, attach the new garden, subscribe to its bus, restart the interval. -/
def connect (eventNames : List String) (g : GardenInfo)
    (targets? : Option (List StreamTarget)) (st : StreamState) (w : BusWorld)
    (timers : List Nat) : StreamState × BusWorld × List Nat :=
  let timers1 :=
    match st.intervalId with
    | some tid => timers.filter (fun t => decide (t ≠ tid))
    | none => timers
  let st1 :=
    match targets? with
    | some ts => { st with targets := ts }
    | none => st
  let w1 :=
    match st1.garden with
    | some old => unsubscribeFromGardenEvents old.busId st1 w
    | none => w
  let st2 := { st1 with garden := some g }
  let sw := subscribeToGardenEvents eventNames g.busId st2 w1
  let si := startInterval sw.1 timers1
  (si.1, sw.2, si.2)

/-- A sequence of `connect` calls applied in order. -/
def connectSeq (eventNames : List String)
    (cs : List (GardenInfo × Option (List StreamTarget)))
    (s : StreamState × BusWorld × List Nat) : StreamState × BusWorld × List Nat :=
  cs.foldl (fun acc c => connect eventNames c.1 c.2 acc.1 acc.2.1 acc.2.2) s

/-- Number of listeners of this stream registered on bus `b` for event `n`. -/
def listenersOn (w : BusWorld) (b : Nat) (n : String) : Nat :=
  (w.filter (fun p => decide (p.1 = b ∧ p.2.eventName = n))).length

/-! ### The command/event server (`GardenServer`) -/

/-- `notReadyMessage` in server.ts. -/
def notReadyMessage : String := "Waiting for Garden instance to initialize"

/-- One open websocket connection: its id and the bus id of `this.garden` at
the moment the connection's forwarding listener was registered via
`this.garden.events.onAny(eventListener)`. -/
structure SocketConn where
  sid : Nat
  gardenBus : Nat
deriving DecidableEq, Repr

/-- The server state the claims need: the per-process `authKey`, the attached
garden (by bus id), which bus currently holds the `serversUpdated` status
listener, and the open socket connections. -/
structure ServerState where
  authKey : String
  garden : Option Nat
  serversUpdatedOn : Option Nat
  sockets : List SocketConn
  nextSid : Nat
deriving DecidableEq, Repr

/-- Server state after the constructor. -/
def initialServer (key : String) : ServerState :=
  { authKey := key, garden := none, serversUpdatedOn := none, sockets := [], nextSid := 0 }

/-- `setGarden(garden)`: remove the `serversUpdated` listener from the previous
garden's bus (if any), store the new garden, register `serversUpdated` on the
new bus. Open sockets and their forwarding listeners are not touched. -/
def setGarden (s : ServerState) (busId : Nat) : ServerState :=
  { s with garden := some busId, serversUpdatedOn := some busId }

/-- The `/ws` route handler: when no garden is attached, respond not-ready and
open nothing; otherwise open a connection whose `eventListener` is registered
on the current garden's bus (and on the incoming-events bus). -/
def openWs (s : ServerState) : ServerState × Option Nat :=
  match s.garden with
  | none => (s, none)
  | some g =>
      ({ s with sockets := s.sockets ++ [⟨s.nextSid, g⟩], nextSid := s.nextSid + 1 },
       some s.nextSid)

/-- An `event` push message sent to one socket. -/
structure WsEventMsg where
  sid : Nat
  name : String
  payload : Payload
deriving DecidableEq, Repr

/-- Publishing an event on the bus `busId` of some orchestrator: every
listener registered on that bus fires, so every open socket whose forwarding
listener lives on that bus receives one `event` message. -/
def emitGardenEvent (s : ServerState) (busId : Nat) (name : String)
    (payload : Payload) : List WsEventMsg :=
  s.sockets.filterMap
    (fun c => if c.gardenBus = busId then some ⟨c.sid, name, payload⟩ else none)

/-- The body of a `POST /events` request: `events` is `none` when the JSON
body has no `events` array (the code performs no validation). -/
structure EventsRequestBody where
  sessionId : String
  events : Option (List (String × Payload))
deriving DecidableEq, Repr

/-- Observable outcome of the `POST /events` handler: a 401 rejection, a 200
with the list of events re-published on the inbound bus (in order), or an
uncaught throw (dereferencing `batch.events` on a malformed body). -/
inductive EventsResponse
| unauthorized
| ok (published : List (String × Payload))
| thrown
deriving DecidableEq, Repr

/-- The `POST /events` handler: compare the auth-token header with
`this.authKey` first; on mismatch set 401 and return. Otherwise read
`batch.events` (which throws when absent) and emit every item on
`this.incomingEvents`, then set 200. -/
def postEvents (authKey : String) (authHeader : Option String)
    (body : EventsRequestBody) : EventsResponse :=
  if authHeader ≠ some authKey then .unauthorized
  else
    match body.events with
    | none => .thrown
    | some evs => .ok evs

/-- HTTP status produced by the handler (`none` when it threw). -/
def eventsStatus : EventsResponse → Option Nat
  | .unauthorized => some 401
  | .ok _ => some 200
  | .thrown => none

/-- Events re-published on the inbound event bus by the handler. -/
def eventsPublished : EventsResponse → List (String × Payload)
  | .ok evs => evs
  | _ => []

/-- Outcome of the `POST /api` handler: 503 not-ready with the fixed message,
or a 200 dispatch recording which orchestrator (bus id) served the request. -/
inductive ApiResponse
| notReadyResp (status : Nat) (body : String)
| ok (status : Nat) (gardenUsed : Nat)
deriving DecidableEq, Repr

/-- The `POST /api` handler: `if (!this.garden) return this.notReady(ctx)`
(status 503, body `notReadyMessage`); otherwise the request is resolved
against the attached garden. -/
def postApi (s : ServerState) (_body : String) : ApiResponse :=
  match s.garden with
  | none => .notReadyResp 503 notReadyMessage
  | some g => .ok 200 g

/-- A parsed socket request envelope: `id` as received (absent when missing),
whether it is a valid UUID string, and the `type` field. -/
structure WsRequest where
  id : Option String
  idIsUuid : Bool
  rtype : Option String
deriving DecidableEq, Repr

/-- First response the socket message handler sends, and — for commands —
which orchestrator it dispatched to. -/
inductive WsOutcome
| errorNoId (message : String)
| errorWithId (requestId : String) (message : String)
| commandDispatched (requestId : String) (gardenUsed : Nat)
deriving DecidableEq, Repr

/-- The websocket `message` handler: unparsable JSON, then the joi UUID check
on `id`, then the presence check on `type`, then dispatch on
`type == "command"` with the not-ready guard, else the unsupported-type
error. `none` models a message that did not parse as JSON. -/
def handleWsMessage (s : ServerState) (m : Option WsRequest) : WsOutcome :=
  match m with
  | none => .errorNoId "Could not parse message as JSON"
  | some r =>
    match r.id with
    | none => .errorNoId "Message should contain an `id` field with a UUID value"
    | some rid =>
      if ¬ r.idIsUuid then
        .errorNoId "Message should contain an `id` field with a UUID value"
      else
        match r.rtype with
        | none => .errorNoId "Message should contain a type field"
        | some t =>
          if t = "command" then
            match s.garden with
            | none => .errorWithId rid notReadyMessage
            | some g => .commandDispatched rid g
          else .errorWithId rid ("Unsupported request type: " ++ t)

/-! ### Record-operation sequences and concrete example states -/

/-- One producer-side call on the stream: a garden event delivered to
`streamEvent`, or a log entry delivered to `streamLogEntry`. -/
inductive RecordOp
| ev (name : String) (payload : Payload) (ts : Nat)
| log (e : LogEntryEvent)
deriving DecidableEq, Repr

/-- Apply one record operation to the stream state. -/
def applyOp (st : StreamState) : RecordOp → StreamState
  | .ev n p ts => streamEvent st n p ts
  | .log e => streamLogEntry st e

/-- Apply a sequence of record operations in order. -/
def applyOps (st : StreamState) (ops : List RecordOp) : StreamState :=
  ops.foldl applyOp st

/-- Whether a record operation is a control event. -/
def RecordOp.isControl : RecordOp → Bool
  | .ev n _ _ => decide (n ∈ controlEventNames)
  | .log _ => false

/-- Example garden instance. -/
def exGarden : GardenInfo := ⟨0, some "proj", "dev", "default"⟩

/-- Example stream target. -/
def exTarget : StreamTarget := ⟨"https://example.com", "token"⟩

/-- Example opaque payload. -/
def exPayload : Payload := ⟨"", "d"⟩

/-- Example non-control event. -/
def exEvent : StreamEvent := ⟨"taskPending", exPayload, 1⟩

/-- Example log entry, distinguished by timestamp. -/
def exLogEntry (i : Nat) : LogEntryEvent := ⟨"k", "m", i, 3⟩

/-- Connected stream holding 150 buffered log entries (more than
`maxBatchSize = 100`). -/
def stC1 : StreamState :=
  { initialStream "sess" "" with
    garden := some exGarden
    targets := [exTarget]
    bufferedLogEntries := (List.range 150).map exLogEntry }

/-- Server trace: attach orchestrator A (bus 0), open one socket, attach
orchestrator B (bus 1). -/
def c2Server : ServerState :=
  setGarden (openWs (setGarden (initialServer "key") 0)).1 1

/-- Connected stream with one buffered event, a running timer, and an empty
target list. -/
def stC3 : StreamState :=
  { initialStream "sess" "" with
    garden := some exGarden
    bufferedEvents := [exEvent]
    intervalId := some 5 }

/-- Stream with the workflow-run env variable set, after a
`_workflowRunRegistered` control event and one ordinary event. -/
def stC7 : StreamState :=
  streamEvent
    (streamEvent
      { initialStream "sess" "ENV-UID" with
        garden := some exGarden
        targets := [exTarget] }
      "_workflowRunRegistered" ⟨"event-uid", ""⟩ 0)
    "taskPending" exPayload 1

/-- The state of a stream that has completed at least one `connect`: a garden
is attached, the listener map records one generation, the bus world holds
exactly that generation's listeners (one per event name, all on the attached
garden's bus), and exactly the one interval timer started by the last
`connect` is live. -/
def ConnectedInv (eventNames : List String) (b : Nat)
    (s : StreamState × BusWorld × List Nat) : Prop :=
  ∃ g gen tid, s.1.garden = some g ∧ g.busId = b
    ∧ s.1.gardenListenerGen = some gen
    ∧ s.2.1 = eventNames.map (fun n => (b, ⟨gen, n⟩))
    ∧ s.1.intervalId = some tid
    ∧ s.2.2 = [tid]

/-- Connected stream with one buffered event, a target and a running timer. -/
def stC3w : StreamState :=
  { initialStream "sess" "" with
    garden := some exGarden
    targets := [exTarget]
    bufferedEvents := [exEvent]
    intervalId := some 5 }

/-- Connected stream with one buffered event and one target. -/
def stC6w : StreamState :=
  { initialStream "sess" "" with
    garden := some exGarden
    targets := [exTarget]
    bufferedEvents := [exEvent] }

/-- Connected stream with no workflow-run env variable set. -/
def stC7w : StreamState :=
  { initialStream "sess" "" with
    garden := some exGarden
    targets := [exTarget] }

/-- Connected stream whose workflow-run env variable is set. -/
def stC9w : StreamState :=
  { initialStream "sess" "ENV-UID" with
    garden := some exGarden
    targets := [exTarget]
    workflowRunUid := some "other" }

/-- First example `connect` call: garden on bus 0, with a target list. -/
def exConnectA : GardenInfo × Option (List StreamTarget) :=
  (⟨0, none, "dev", "ns"⟩, some [exTarget])

/-- Second example `connect` call: garden on bus 1, keeping the targets. -/
def exConnectB : GardenInfo × Option (List StreamTarget) :=
  (⟨1, none, "dev", "ns"⟩, none)

/-! ## Theorems -/

set_option maxRecDepth 4000 in
/-- C1: a periodic (non-flushAll) flush is claimed to send the oldest
min(bufferLength, maxBatchSize) items of each buffer. The code computes the
log-entry splice count as `maxBatchSize - bufferedLogEntries.length`: with 150
buffered log entries and `maxBatchSize = 100` the count is negative, so the
flush sends no log batch at all and leaves all 150 entries buffered, while
min(150, 100) = 100 items should have been drained. -/
theorem periodic_log_flush_divergence :
    (flushBuffered false stC1).logBatch = none
    ∧ (flushBuffered false stC1).logAttempts = []
    ∧ (flushBuffered false stC1).state.bufferedLogEntries.length = 150
    ∧ min stC1.bufferedLogEntries.length stC1.maxBatchSize = 100 := by
  refine ⟨rfl, rfl, ?_, ?_⟩ <;> rfl

/-- C2: after orchestrator A (bus 0) is attached, a socket is opened, and
orchestrator B (bus 1) is attached via `setGarden`, an event published on A's
bus is still forwarded to the open socket — `setGarden` removes only the
`serversUpdated` listener, not the socket's forwarding listener. -/
theorem setGarden_stale_forwarding :
    c2Server.garden = some 1
    ∧ emitGardenEvent c2Server 0 "taskPending" exPayload
        = [⟨0, "taskPending", exPayload⟩]
    ∧ emitGardenEvent c2Server 0 "taskPending" exPayload ≠ [] := by
  refine ⟨rfl, rfl, ?_⟩
  decide

/-- C3 counterexample: `close()` on a stream with one buffered event and an
empty target list leaves the event buffer untouched and attempts no delivery,
contradicting the claim that close always leaves both buffers empty. -/
theorem close_empty_targets_counterexample :
    stC3.targets = []
    ∧ (closeStream stC3 [5]).1.bufferedEvents = [exEvent]
    ∧ (closeStream stC3 [5]).1.bufferedEvents ≠ []
    ∧ (closeStream stC3 [5]).2.2.eventAttempts = [] := by
  refine ⟨rfl, rfl, ?_, rfl⟩
  decide

/-- C10: an authenticated `POST /events` whose body lacks an `events` array
makes the handler throw (the code dereferences `batch.events` without
validation), so neither a 200 nor a 401 is produced. -/
theorem events_endpoint_malformed_throws :
    postEvents "secret" (some "secret") ⟨"sess", none⟩ = .thrown
    ∧ eventsStatus (postEvents "secret" (some "secret") ⟨"sess", none⟩) = none := by
  refine ⟨?_, ?_⟩ <;> decide

/-- C4: `POST /events` rejects a wrong or missing auth-token header with 401
and publishes nothing; with the correct header and a well-formed body it
publishes every item of the `events` array on the inbound bus, in order, and
responds 200. -/
theorem events_endpoint_auth (key : String) (hdr : Option String)
    (body : EventsRequestBody) :
    (hdr ≠ some key →
      eventsStatus (postEvents key hdr body) = some 401
      ∧ eventsPublished (postEvents key hdr body) = [])
    ∧ (∀ evs, hdr = some key → body.events = some evs →
      eventsStatus (postEvents key hdr body) = some 200
      ∧ eventsPublished (postEvents key hdr body) = evs) := by
  constructor
  · intro h
    simp [postEvents, h, eventsStatus, eventsPublished]
  · intro evs h he
    subst h
    simp [postEvents, he, eventsStatus, eventsPublished]

/-- Witness for C4 at concrete inputs: a wrong header yields 401 with nothing
published; the correct header yields 200 with the body's events published. -/
theorem events_endpoint_auth_witness :
    (eventsStatus (postEvents "secret" (some "wrong")
        ⟨"s", some [("taskPending", exPayload)]⟩) = some 401
      ∧ eventsPublished (postEvents "secret" (some "wrong")
          ⟨"s", some [("taskPending", exPayload)]⟩) = [])
    ∧ (eventsStatus (postEvents "secret" (some "secret")
        ⟨"s", some [("taskPending", exPayload)]⟩) = some 200
      ∧ eventsPublished (postEvents "secret" (some "secret")
          ⟨"s", some [("taskPending", exPayload)]⟩) = [("taskPending", exPayload)]) :=
  ⟨(events_endpoint_auth "secret" (some "wrong") _).1 (by decide),
   (events_endpoint_auth "secret" (some "secret") _).2 [("taskPending", exPayload)]
     rfl rfl⟩

/-- C5: while no orchestrator is attached, `POST /api` answers 503 with the
fixed not-ready message, and a socket request of type "command" (with a valid
UUID id) receives `error{requestId, notReadyMessage}`; neither outcome carries
an orchestrator reference. -/
theorem command_notReady (s : ServerState) (body : String) (r : WsRequest)
    (rid : String) (hg : s.garden = none) (hid : r.id = some rid)
    (hu : r.idIsUuid = true) (ht : r.rtype = some "command") :
    postApi s body = .notReadyResp 503 notReadyMessage
    ∧ handleWsMessage s (some r) = .errorWithId rid notReadyMessage
    ∧ (∀ g, postApi s body ≠ .ok 200 g)
    ∧ (∀ g, handleWsMessage s (some r) ≠ .commandDispatched rid g) := by
  obtain ⟨id, uuid, ty⟩ := r
  simp only at hid hu ht
  subst hid hu ht
  refine ⟨?_, ?_, ?_, ?_⟩ <;> simp [postApi, handleWsMessage, hg]

/-- Witness for C5: concrete not-ready server and command request. -/
theorem command_notReady_witness :
    postApi (initialServer "k") "cmd" = .notReadyResp 503 notReadyMessage
    ∧ handleWsMessage (initialServer "k")
        (some ⟨some "123e4567-e89b-12d3-a456-426614174000", true, some "command"⟩)
        = .errorWithId "123e4567-e89b-12d3-a456-426614174000" notReadyMessage :=
  ⟨(command_notReady (initialServer "k") "cmd"
      ⟨some "123e4567-e89b-12d3-a456-426614174000", true, some "command"⟩
      "123e4567-e89b-12d3-a456-426614174000" rfl rfl rfl rfl).1,
   (command_notReady (initialServer "k") "cmd"
      ⟨some "123e4567-e89b-12d3-a456-426614174000", true, some "command"⟩
      "123e4567-e89b-12d3-a456-426614174000" rfl rfl rfl rfl).2.1⟩

/-- Mapping targets to (target, batch) pairs and projecting back is the
identity. -/
lemma map_fst_comp_pair {A B : Type} (l : List A) (f : A → B) :
    List.map (Prod.fst ∘ fun t => (t, f t)) l = l := by
  induction l with
  | nil => rfl
  | cons x xs ih => simp only [List.map_cons, Function.comp_apply, ih]

/-- C3 (amended): when a garden is attached and at least one target is
configured, `close()` stops the timer, builds one batch per nonempty buffer
containing the entire buffer in order, attempts it once per target, and
leaves both buffers empty; the timer is stopped in every case. -/
theorem close_flushAll_with_targets (st : StreamState) (timers : List Nat)
    (g : GardenInfo) (hg : st.garden = some g) (ht : st.targets ≠ []) :
    ((closeStream st timers).1.bufferedEvents = []
      ∧ (closeStream st timers).1.bufferedLogEntries = []
      ∧ (closeStream st timers).1.intervalId = none)
    ∧ ((closeStream st timers).2.2.eventAttempts.map Prod.fst
        = if st.bufferedEvents = [] then [] else st.targets)
    ∧ (∀ a ∈ (closeStream st timers).2.2.eventAttempts,
        a.2.events = st.bufferedEvents)
    ∧ ((closeStream st timers).2.2.logAttempts.map Prod.fst
        = if st.bufferedLogEntries = [] then [] else st.targets)
    ∧ (∀ a ∈ (closeStream st timers).2.2.logAttempts,
        a.2.logEntries = st.bufferedLogEntries)
    ∧ (∀ tid, st.intervalId = some tid →
        (closeStream st timers).2.1 = timers.filter (fun t => decide (t ≠ tid)))
    ∧ (st.intervalId = none → (closeStream st timers).2.1 = timers) := by
  have hlen : ¬ st.targets.length = 0 := by
    simpa [List.length_eq_zero] using ht
  obtain ⟨sid, env, tg, gd, uid, iv, bev, blog, mx, gl, ng, nt⟩ := st
  simp only at hg hlen ht ⊢
  subst hg
  cases iv with
  | some tid =>
    refine ⟨⟨?_, ?_, ?_⟩, ?_, ?_, ?_, ?_, ?_, ?_⟩
    · simp [closeStream, flushBuffered, if_neg hlen, ht, spliceFront]
    · simp [closeStream, flushBuffered, if_neg hlen, ht, spliceFront]
    · simp [closeStream, flushBuffered, if_neg hlen, ht, spliceFront]
    · by_cases hb : bev = [] <;>
        simp [closeStream, flushBuffered, if_neg hlen, ht, spliceFront, flushEvents,
          postToTargets, hb, List.length_eq_zero, map_fst_comp_pair]
    · intro a ha
      by_cases hb : bev = [] <;>
        simp [closeStream, flushBuffered, if_neg hlen, ht, spliceFront, flushEvents,
          postToTargets, hb, List.length_eq_zero, map_fst_comp_pair] at ha
      · obtain ⟨t, ht2, rfl⟩ := ha
        simp [hb]
    · by_cases hb : blog = [] <;>
        simp [closeStream, flushBuffered, if_neg hlen, ht, spliceFront,
          flushLogEntries, postToTargets, hb, List.length_eq_zero, map_fst_comp_pair]
    · intro a ha
      by_cases hb : blog = [] <;>
        simp [closeStream, flushBuffered, if_neg hlen, ht, spliceFront,
          flushLogEntries, postToTargets, hb, List.length_eq_zero,
          map_fst_comp_pair] at ha
      · obtain ⟨t, ht2, rfl⟩ := ha
        simp [hb]
    · intro tid2 h
      cases h
      simp [closeStream, flushBuffered, if_neg hlen, ht, spliceFront]
    · intro h
      cases h
  | none =>
    refine ⟨⟨?_, ?_, ?_⟩, ?_, ?_, ?_, ?_, ?_, ?_⟩
    · simp [closeStream, flushBuffered, if_neg hlen, ht, spliceFront]
    · simp [closeStream, flushBuffered, if_neg hlen, ht, spliceFront]
    · simp [closeStream, flushBuffered, if_neg hlen, ht, spliceFront]
    · by_cases hb : bev = [] <;>
        simp [closeStream, flushBuffered, if_neg hlen, ht, spliceFront, flushEvents,
          postToTargets, hb, List.length_eq_zero, map_fst_comp_pair]
    · intro a ha
      by_cases hb : bev = [] <;>
        simp [closeStream, flushBuffered, if_neg hlen, ht, spliceFront, flushEvents,
          postToTargets, hb, List.length_eq_zero, map_fst_comp_pair] at ha
      · obtain ⟨t, ht2, rfl⟩ := ha
        simp [hb]
    · by_cases hb : blog = [] <;>
        simp [closeStream, flushBuffered, if_neg hlen, ht, spliceFront,
          flushLogEntries, postToTargets, hb, List.length_eq_zero, map_fst_comp_pair]
    · intro a ha
      by_cases hb : blog = [] <;>
        simp [closeStream, flushBuffered, if_neg hlen, ht, spliceFront,
          flushLogEntries, postToTargets, hb, List.length_eq_zero,
          map_fst_comp_pair] at ha
      · obtain ⟨t, ht2, rfl⟩ := ha
        simp [hb]
    · intro tid2 h
      cases h
    · intro h
      simp [closeStream]

/-- Witness for the amended C3 at a concrete stream: one buffered event, one
target, a running timer — close empties the buffer, delivers one batch to the
target, and stops the timer. -/
theorem close_flushAll_with_targets_witness :
    (closeStream stC3w [5]).1.bufferedEvents = []
    ∧ (closeStream stC3w [5]).2.2.eventAttempts.map Prod.fst = [exTarget]
    ∧ (closeStream stC3w [5]).1.intervalId = none :=
  have h := close_flushAll_with_targets stC3w [5] exGarden rfl (by decide)
  ⟨h.1.1, by simpa using h.2.1, h.1.2.2⟩

/-- Filtering (target, batch) pairs for one target counts that target's
occurrences. -/
lemma length_filter_pair {A B : Type} [DecidableEq A] (l : List A) (t : A) (b : B) :
    ((l.map (fun x => (x, b))).filter (fun a => decide (a.1 = t))).length
      = (l.filter (fun x => decide (x = t))).length := by
  induction l with
  | nil => rfl
  | cons x xs ih => by_cases h : x = t <;> simp [h, ih]

/-- In a duplicate-free list, a member occurs exactly once. -/
lemma length_filter_eq_one_of_nodup {A : Type} [DecidableEq A] (l : List A) (t : A)
    (hnd : l.Nodup) (hm : t ∈ l) :
    (l.filter (fun x => decide (x = t))).length = 1 := by
  induction l with
  | nil => cases hm
  | cons a xs ih =>
    have hnd' := List.nodup_cons.mp hnd
    by_cases hat : a = t
    · subst hat
      have hnil : xs.filter (fun x => decide (x = a)) = [] := by
        refine List.filter_eq_nil_iff.mpr ?_
        intro b hb
        simp only [decide_eq_true_eq]
        intro hba
        exact hnd'.1 (hba ▸ hb)
      simp [List.filter_cons, hnil]
    · have hm' : t ∈ xs := by
        rcases List.mem_cons.mp hm with h | h
        · exact absurd h.symm hat
        · exact h
      simp [List.filter_cons, hat, ih hnd'.2 hm']

/-- C6: a flush removes the spliced items from both buffers before any
delivery outcome is known — the flush's state and attempts are identical for
any two outcome assignments — and, for a nonempty event buffer, every
configured target observes exactly one delivery attempt whose batch holds the
removed (oldest) events; nothing is re-inserted or retried on failure. -/
theorem flush_at_most_once (st : StreamState) (fa : Bool) (g : GardenInfo)
    (o1 o2 : StreamTarget → Bool)
    (hg : st.garden = some g) (ht : st.targets ≠ []) (hnd : st.targets.Nodup)
    (t : StreamTarget) (htm : t ∈ st.targets)
    (hev : st.bufferedEvents ≠ []) (hmax : st.maxBatchSize ≠ 0) :
    (flushWithOutcome o1 fa st).1 = (flushWithOutcome o2 fa st).1
    ∧ (flushBuffered fa st).state.bufferedEvents
        = st.bufferedEvents.drop
            (if fa then st.bufferedEvents.length else st.maxBatchSize)
    ∧ (flushBuffered fa st).state.bufferedLogEntries
        = st.bufferedLogEntries.drop
            ((if fa then (st.bufferedLogEntries.length : Int)
              else (st.maxBatchSize : Int) - st.bufferedLogEntries.length)).toNat
    ∧ (((flushBuffered fa st).eventAttempts.filter
          (fun a => decide (a.1 = t))).length = 1)
    ∧ (∀ a ∈ (flushBuffered fa st).eventAttempts,
        a.2.events = st.bufferedEvents.take
          (if fa then st.bufferedEvents.length else st.maxBatchSize)) := by
  have hlen : ¬ st.targets.length = 0 := by
    simpa [List.length_eq_zero] using ht
  obtain ⟨sid, env, tg, gd, uid, iv, bev, blog, mx, gl, ng, nt⟩ := st
  simp only at hg hlen ht hnd htm hev hmax ⊢
  subst hg
  refine ⟨rfl, ?_, ?_, ?_, ?_⟩
  · cases fa <;>
      simp [flushBuffered, if_neg hlen, ht, spliceFront]
  · cases fa <;>
      simp [flushBuffered, if_neg hlen, ht, spliceFront]
  · cases fa <;>
      simp [flushBuffered, if_neg hlen, ht, spliceFront, flushEvents, hev, hmax,
        List.length_eq_zero, postToTargets, length_filter_pair,
        length_filter_eq_one_of_nodup tg t hnd htm]
  · intro a ha
    cases fa <;>
      simp [flushBuffered, if_neg hlen, ht, spliceFront, flushEvents, hev, hmax,
        List.length_eq_zero, postToTargets] at ha <;>
      obtain ⟨t2, ht2, rfl⟩ := ha <;>
      simp

/-- Witness for C6 at a concrete stream: one buffered event, one failing and
one succeeding outcome assignment — the target observes exactly one attempt
and the buffer is empty afterwards. -/
theorem flush_at_most_once_witness :
    ((flushBuffered false stC6w).eventAttempts.filter
        (fun a => decide (a.1 = exTarget))).length = 1
    ∧ (flushBuffered false stC6w).state.bufferedEvents = []
    ∧ (flushWithOutcome (fun _ => false) false stC6w).1
        = (flushWithOutcome (fun _ => true) false stC6w).1 :=
  have h := flush_at_most_once stC6w false exGarden (fun _ => false)
    (fun _ => true) rfl (by decide) (by decide) exTarget (by decide) (by decide)
    (by decide)
  ⟨h.2.2.2.1, by simpa using h.2.1, h.1⟩

/-- Applying non-control record operations changes neither the stored
workflow-run uid nor the ambient env value. -/
lemma applyOps_uid_env (ops : List RecordOp) (h : ∀ op ∈ ops, op.isControl = false) :
    ∀ st : StreamState, (applyOps st ops).workflowRunUid = st.workflowRunUid
      ∧ (applyOps st ops).envWorkflowRunUid = st.envWorkflowRunUid := by
  induction ops with
  | nil => intro st; exact ⟨rfl, rfl⟩
  | cons op ops ih =>
    intro st
    have hop := h op (List.mem_cons_self _ _)
    have hrest : ∀ o ∈ ops, o.isControl = false :=
      fun o ho => h o (List.mem_cons_of_mem _ ho)
    have h1 := ih hrest (applyOp st op)
    have hstep : applyOps st (op :: ops) = applyOps (applyOp st op) ops := rfl
    cases op with
    | ev n p ts =>
      have hn : ¬ n ∈ controlEventNames := by
        simpa [RecordOp.isControl] using hop
      rw [hstep, h1.1, h1.2]
      constructor <;> simp [applyOp, streamEvent, hn]
    | log e =>
      rw [hstep, h1.1, h1.2]
      exact ⟨rfl, rfl⟩

/-- A produced event batch carries the stream's `getWorkflowRunUid`. -/
lemma flushEvents_uid (st : StreamState) (g : GardenInfo) (evs : List StreamEvent)
    (b : ApiEventBatch) (h : flushEvents st g evs = some b) :
    b.workflowRunUid = getWorkflowRunUid st := by
  unfold flushEvents at h
  by_cases hc : evs.length = 0
  · rw [if_pos hc] at h
    cases h
  · rw [if_neg hc] at h
    cases h
    rfl

/-- A produced log batch carries the stream's `getWorkflowRunUid`. -/
lemma flushLogEntries_uid (st : StreamState) (g : GardenInfo)
    (entries : List LogEntryEvent) (b : ApiLogBatch)
    (h : flushLogEntries st g entries = some b) :
    b.workflowRunUid = getWorkflowRunUid st := by
  unfold flushLogEntries at h
  by_cases hc : entries.length = 0
  · rw [if_pos hc] at h
    cases h
  · rw [if_neg hc] at h
    cases h
    rfl

/-- The event batch of any flush carries `getWorkflowRunUid` of the pre-flush
state. -/
lemma eventBatch_uid (fa : Bool) (st : StreamState) (b : ApiEventBatch)
    (h : (flushBuffered fa st).eventBatch = some b) :
    b.workflowRunUid = getWorkflowRunUid st := by
  obtain ⟨sid, env, tg, gd, uid, iv, bev, blog, mx, gl, ng, nt⟩ := st
  cases gd with
  | none => simp [flushBuffered] at h
  | some g =>
    by_cases hlen : tg.length = 0
    · simp [flushBuffered, hlen] at h
    · simp only [flushBuffered, if_neg hlen, spliceFront] at h
      rw [flushEvents_uid _ _ _ _ h]
      simp [getWorkflowRunUid]

/-- The log batch of any flush carries `getWorkflowRunUid` of the pre-flush
state. -/
lemma logBatch_uid (fa : Bool) (st : StreamState) (b : ApiLogBatch)
    (h : (flushBuffered fa st).logBatch = some b) :
    b.workflowRunUid = getWorkflowRunUid st := by
  obtain ⟨sid, env, tg, gd, uid, iv, bev, blog, mx, gl, ng, nt⟩ := st
  cases gd with
  | none => simp [flushBuffered] at h
  | some g =>
    by_cases hlen : tg.length = 0
    · simp [flushBuffered, hlen] at h
    · simp only [flushBuffered, if_neg hlen, spliceFront] at h
      rw [flushLogEntries_uid _ _ _ _ h]
      simp [getWorkflowRunUid]

/-- C7 counterexample: with `GARDEN_WORKFLOW_RUN_UID` set to "ENV-UID", a
`_workflowRunRegistered` control event updates the internal scalar to
"event-uid", yet the next flushed batch carries "ENV-UID" — the scalar is not
attached to every subsequently flushed batch, as claimed. -/
theorem control_event_env_override_counterexample :
    stC7.workflowRunUid = some "event-uid"
    ∧ (flushBuffered false stC7).eventBatch.map (fun b => b.workflowRunUid)
        = some (some "ENV-UID")
    ∧ some "ENV-UID" ≠ some "event-uid" := by
  refine ⟨rfl, rfl, ?_⟩
  decide

/-- C7 (amended): a control event (`_workflowRunRegistered`) leaves both
buffers unchanged and only sets the internal workflowRunUid scalar to the
payload's uid; provided `GARDEN_WORKFLOW_RUN_UID` is unset, every batch
flushed after any further non-control record operations carries that scalar
as its workflowRunUid correlation field. -/
theorem control_event_frame (st : StreamState) (name : String) (payload : Payload)
    (ts : Nat) (hn : name ∈ controlEventNames) :
    (streamEvent st name payload ts).bufferedEvents = st.bufferedEvents
    ∧ (streamEvent st name payload ts).bufferedLogEntries = st.bufferedLogEntries
    ∧ (streamEvent st name payload ts).workflowRunUid = some payload.workflowRunUid
    ∧ (∀ ops, (∀ op ∈ ops, op.isControl = false) →
        st.envWorkflowRunUid = "" → ∀ fa : Bool,
        (∀ b, (flushBuffered fa
              (applyOps (streamEvent st name payload ts) ops)).eventBatch = some b →
            b.workflowRunUid = some payload.workflowRunUid)
        ∧ (∀ b, (flushBuffered fa
              (applyOps (streamEvent st name payload ts) ops)).logBatch = some b →
            b.workflowRunUid = some payload.workflowRunUid)) := by
  have hname : name = "_workflowRunRegistered" := by
    simpa [controlEventNames] using hn
  subst hname
  have hstream : streamEvent st "_workflowRunRegistered" payload ts
      = { st with workflowRunUid := some payload.workflowRunUid } := by
    simp [streamEvent, controlEventNames, handleControlEvent]
  refine ⟨by rw [hstream], by rw [hstream], by rw [hstream], ?_⟩
  intro ops hops henv fa
  have hpres := applyOps_uid_env ops hops
    (streamEvent st "_workflowRunRegistered" payload ts)
  have huid : (applyOps (streamEvent st "_workflowRunRegistered" payload ts)
      ops).workflowRunUid = some payload.workflowRunUid := by
    rw [hpres.1, hstream]
  have henv2 : (applyOps (streamEvent st "_workflowRunRegistered" payload ts)
      ops).envWorkflowRunUid = "" := by
    rw [hpres.2, hstream]
    exact henv
  constructor
  · intro b hb
    rw [eventBatch_uid fa _ b hb]
    simp [getWorkflowRunUid, henv2, huid]
  · intro b hb
    rw [logBatch_uid fa _ b hb]
    simp [getWorkflowRunUid, henv2, huid]

/-- Witness for the amended C7 at a concrete stream: the control event
buffers nothing, stores "wf-uid", and a flush after one ordinary event
attaches "wf-uid" to the batch. -/
theorem control_event_frame_witness :
    (streamEvent stC7w "_workflowRunRegistered" ⟨"wf-uid", ""⟩ 0).bufferedEvents
        = stC7w.bufferedEvents
    ∧ (streamEvent stC7w "_workflowRunRegistered" ⟨"wf-uid", ""⟩ 0).workflowRunUid
        = some "wf-uid"
    ∧ (∀ b, (flushBuffered false
          (applyOps (streamEvent stC7w "_workflowRunRegistered" ⟨"wf-uid", ""⟩ 0)
            [RecordOp.ev "taskPending" exPayload 1])).eventBatch = some b →
        b.workflowRunUid = some "wf-uid") :=
  have h := control_event_frame stC7w "_workflowRunRegistered" ⟨"wf-uid", ""⟩ 0
    (by decide)
  ⟨h.1, h.2.2.1,
   (h.2.2.2 [RecordOp.ev "taskPending" exPayload 1] (by decide) rfl false).1⟩

/-- No record operation changes the ambient env value. -/
lemma applyOps_env (ops : List RecordOp) :
    ∀ st : StreamState, (applyOps st ops).envWorkflowRunUid
      = st.envWorkflowRunUid := by
  induction ops with
  | nil => intro st; rfl
  | cons op ops ih =>
    intro st
    have hstep : applyOps st (op :: ops) = applyOps (applyOp st op) ops := rfl
    rw [hstep, ih]
    cases op with
    | ev n p ts =>
      by_cases hn : n ∈ controlEventNames
      · simp only [applyOp, streamEvent, if_pos hn, handleControlEvent]
        split <;> rfl
      · simp [applyOp, streamEvent, hn]
    | log e => rfl

/-- C9: when `GARDEN_WORKFLOW_RUN_UID` is set to a non-empty value, every
batch flushed after any record operations — control events included —
carries that env value as workflowRunUid; the internal scalar is consulted
only when the env variable is unset. -/
theorem workflowRunUid_env_precedence (st : StreamState) (v : String)
    (henv : st.envWorkflowRunUid = v) (hv : v ≠ "") :
    getWorkflowRunUid st = some v
    ∧ (∀ (ops : List RecordOp) (fa : Bool),
        (∀ b, (flushBuffered fa (applyOps st ops)).eventBatch = some b →
            b.workflowRunUid = some v)
        ∧ (∀ b, (flushBuffered fa (applyOps st ops)).logBatch = some b →
            b.workflowRunUid = some v))
    ∧ (∀ st2 : StreamState, st2.envWorkflowRunUid = "" →
        getWorkflowRunUid st2 = st2.workflowRunUid) := by
  have h1 : getWorkflowRunUid st = some v := by
    simp [getWorkflowRunUid, henv, hv]
  refine ⟨h1, ?_, ?_⟩
  · intro ops fa
    have he : (applyOps st ops).envWorkflowRunUid = v := by
      rw [applyOps_env]
      exact henv
    constructor
    · intro b hb
      rw [eventBatch_uid fa _ b hb]
      simp [getWorkflowRunUid, he, hv]
    · intro b hb
      rw [logBatch_uid fa _ b hb]
      simp [getWorkflowRunUid, he, hv]
  · intro st2 h2
    simp [getWorkflowRunUid, h2]

/-- Witness for C9 at a concrete stream: env set to "ENV-UID" and a control
event carrying "event-uid" — the flushed batch still carries "ENV-UID". -/
theorem workflowRunUid_env_precedence_witness :
    getWorkflowRunUid stC9w = some "ENV-UID"
    ∧ (∀ b, (flushBuffered false
          (applyOps stC9w [RecordOp.ev "_workflowRunRegistered" ⟨"event-uid", ""⟩ 0,
            RecordOp.ev "taskPending" exPayload 1])).eventBatch = some b →
        b.workflowRunUid = some "ENV-UID")
    ∧ getWorkflowRunUid (initialStream "x" "")
        = (initialStream "x" "").workflowRunUid :=
  have h := workflowRunUid_env_precedence stC9w "ENV-UID" rfl (by decide)
  ⟨h.1,
   (h.2.1 [RecordOp.ev "_workflowRunRegistered" ⟨"event-uid", ""⟩ 0,
     RecordOp.ev "taskPending" exPayload 1] false).1,
   h.2.2 (initialStream "x" "") rfl⟩

/-- Unsubscribing removes exactly the recorded generation's listeners. -/
lemma filter_unsub_nil (eventNames : List String) (b gen : Nat) :
    (eventNames.map (fun n => ((b, ⟨gen, n⟩) : Nat × Listener))).filter
      (fun p => decide (¬(p.1 = b ∧ p.2.gen = gen))) = [] := by
  induction eventNames with
  | nil => rfl
  | cons n ns ih => simp [ih]

/-- A first `connect` from the constructor state establishes the connected
invariant for the new garden's bus. -/
lemma connect_establishes (eventNames : List String) (sid env : String)
    (g : GardenInfo) (t? : Option (List StreamTarget)) :
    ConnectedInv eventNames g.busId
      (connect eventNames g t? (initialStream sid env) [] []) := by
  cases t? with
  | none => exact ⟨g, 0, 0, rfl, rfl, rfl, rfl, rfl, rfl⟩
  | some ts => exact ⟨g, 0, 0, rfl, rfl, rfl, rfl, rfl, rfl⟩

/-- `connect` on an already-connected stream clears the old timer,
unsubscribes the old bus's listeners, and re-establishes the invariant on the
new garden's bus. -/
lemma connect_preserves (eventNames : List String) (b : Nat)
    (g2 : GardenInfo) (t? : Option (List StreamTarget))
    (st : StreamState) (w : BusWorld) (tm : List Nat)
    (h : ConnectedInv eventNames b (st, w, tm)) :
    ConnectedInv eventNames g2.busId (connect eventNames g2 t? st w tm) := by
  obtain ⟨g, gen, tid, hg, hb, hgen, hw, hiv, htm⟩ := h
  simp only at hg hb hgen hw hiv htm
  obtain ⟨sid, env, tg, gd, uid, iv, bev, blog, mx, gl, ng, nt⟩ := st
  simp only at hg hgen hiv
  subst hg hgen hiv hw htm hb
  cases t? with
  | none =>
    refine ⟨g2, ng, nt, ?_, rfl, ?_, ?_, ?_, ?_⟩ <;>
      simp [connect, subscribeToGardenEvents, unsubscribeFromGardenEvents,
        startInterval, filter_unsub_nil]
  | some ts =>
    refine ⟨g2, ng, nt, ?_, rfl, ?_, ?_, ?_, ?_⟩ <;>
      simp [connect, subscribeToGardenEvents, unsubscribeFromGardenEvents,
        startInterval, filter_unsub_nil]

/-- The connected invariant is preserved by any sequence of `connect` calls,
ending on the last call's bus. -/
lemma connectSeq_inv (eventNames : List String) :
    ∀ (cs : List (GardenInfo × Option (List StreamTarget)))
      (s : StreamState × BusWorld × List Nat) (b : Nat),
      ConnectedInv eventNames b s →
      ConnectedInv eventNames (cs.foldl (fun _ c => c.1.busId) b)
        (connectSeq eventNames cs s) := by
  intro cs
  induction cs with
  | nil => intro s b h; exact h
  | cons c cs ih =>
    intro s b h
    have h1 := connect_preserves eventNames b c.1 c.2 s.1 s.2.1 s.2.2 h
    exact ih _ c.1.busId h1

/-- Counting one generation's listeners on a bus. -/
lemma listenersOn_map (eventNames : List String) (b gen b2 : Nat) (n : String) :
    listenersOn (eventNames.map (fun m => (b, ⟨gen, m⟩))) b2 n
      = if b2 = b then (eventNames.filter (fun m => decide (m = n))).length
        else 0 := by
  induction eventNames with
  | nil => simp [listenersOn]
  | cons m ms ih =>
    by_cases hb : b2 = b
    · subst hb
      by_cases hm : m = n <;>
        simp [listenersOn, List.filter_cons, hm] at ih ⊢ <;>
        first
        | rfl
        | exact ih
    · have hb' : ¬ b = b2 := fun h2 => hb h2.symm
      simp [listenersOn, List.filter_cons, hb, hb'] at ih ⊢
      try exact ih

/-- C8: after any nonempty sequence of `connect` calls from the constructor
state, exactly one interval timer is live (each `connect` cancels the
previous one), and for each event name exactly one listener of this stream is
registered, on the last-connected garden's bus only — no leaked timers, no
duplicate or orphaned listeners. -/
theorem connect_no_leak (eventNames : List String) (hnd : eventNames.Nodup)
    (sid env : String) (cs : List (GardenInfo × Option (List StreamTarget)))
    (c : GardenInfo × Option (List StreamTarget)) :
    (connectSeq eventNames (cs ++ [c])
      (initialStream sid env, [], [])).2.2.length = 1
    ∧ (∀ n ∈ eventNames,
        listenersOn
          (connectSeq eventNames (cs ++ [c]) (initialStream sid env, [], [])).2.1
          c.1.busId n = 1)
    ∧ (∀ b n, b ≠ c.1.busId →
        listenersOn
          (connectSeq eventNames (cs ++ [c]) (initialStream sid env, [], [])).2.1
          b n = 0) := by
  have hinv : ConnectedInv eventNames c.1.busId
      (connectSeq eventNames (cs ++ [c]) (initialStream sid env, [], [])) := by
    cases cs with
    | nil =>
      exact connect_establishes eventNames sid env c.1 c.2
    | cons c0 cs' =>
      have h0 := connect_establishes eventNames sid env c0.1 c0.2
      have h1 := connectSeq_inv eventNames (cs' ++ [c]) _ c0.1.busId h0
      have hbus : (cs' ++ [c]).foldl (fun _ d => d.1.busId) c0.1.busId
          = c.1.busId := by
        rw [List.foldl_append]
        rfl
      rw [hbus] at h1
      exact h1
  obtain ⟨g, gen, tid, hg, hb, hgen, hw, hiv, htm⟩ := hinv
  refine ⟨?_, ?_, ?_⟩
  · rw [htm]
    rfl
  · intro n hn
    rw [hw, listenersOn_map, if_pos rfl]
    exact length_filter_eq_one_of_nodup eventNames n hnd hn
  · intro b n hbne
    rw [hw, listenersOn_map, if_neg hbne]

/-- Witness for C8 at concrete inputs: two event names, a connect to bus 0
followed by a connect to bus 1 — one live timer, one listener for "a" on bus
1, none on bus 0. -/
theorem connect_no_leak_witness :
    (connectSeq ["a", "b"] ([exConnectA] ++ [exConnectB])
      (initialStream "sess" "", [], [])).2.2.length = 1
    ∧ listenersOn
        (connectSeq ["a", "b"] ([exConnectA] ++ [exConnectB])
          (initialStream "sess" "", [], [])).2.1
        exConnectB.1.busId "a" = 1
    ∧ listenersOn
        (connectSeq ["a", "b"] ([exConnectA] ++ [exConnectB])
          (initialStream "sess" "", [], [])).2.1
        0 "a" = 0 :=
  have h := connect_no_leak ["a", "b"] (by decide) "sess" "" [exConnectA]
    exConnectB
  ⟨h.1, h.2.1 "a" (by decide), h.2.2 0 "a" (by decide)⟩

end Garden
